import Mathlib

/-!
Verification development for the mcp-image-extractor repository.

The TypeScript sources under `src/` are shallowly embedded below.  External
collaborators (the sharp imaging library, axios, the filesystem, puppeteer,
Node's base64 decoding) are represented as an explicit environment record of
pure functions; the repository's own control flow is translated statement by
statement from `src/src/image-utils.ts` (canonical variant) and from the
legacy tool handlers in `src/unnamed/part_002`.  Side effects relevant to the
specification (network fetch, file read, resize invocation, compression
warning, browser lifecycle) are made observable through an event trace
returned next to each tool response.
-/

namespace ImageExtractor

/-- Probed image metadata, mirroring sharp's `metadata()` result fields the
code reads: `width`, `height`, `format`, each possibly `undefined`. -/
structure Metadata where
  width : Option Nat
  height : Option Nat
  format : Option String
deriving Repr, DecidableEq

/-- The options object passed to sharp's `resize` in the source:
`{ width, height, fit: 'inside', withoutEnlargement: true }`. -/
structure ResizeOpts where
  width : Nat
  height : Nat
  fit : String
  withoutEnlargement : Bool
deriving Repr, DecidableEq

/-- One entry of the source's `COMPRESSION_OPTIONS` record. -/
structure CompressOpts where
  quality : Option Nat
  compressionLevel : Option Nat
deriving Repr, DecidableEq

/-- `COMPRESSION_OPTIONS` from src/src/image-utils.ts lines 28-37, as a map
from the format key to its options; `none` for unsupported keys (the `in`
check on line 108). -/
def COMPRESSION_OPTIONS : String → Option CompressOpts
  | "jpeg" => some ⟨some 80, none⟩
  | "jpg" => some ⟨some 80, none⟩
  | "png" => some ⟨some 80, some 9⟩
  | "webp" => some ⟨some 80, none⟩
  | "gif" => some ⟨none, none⟩
  | "svg" => some ⟨none, none⟩
  | "avif" => some ⟨some 80, none⟩
  | "tiff" => some ⟨some 80, none⟩
  | _ => none

/-- `DEFAULT_MAX_WIDTH` from src/src/image-utils.ts line 14. -/
def DEFAULT_MAX_WIDTH : Nat := 512

/-- `DEFAULT_MAX_HEIGHT` from src/src/image-utils.ts line 15. -/
def DEFAULT_MAX_HEIGHT : Nat := 512

/-- The advertised `max_width` default in the tool schemas of
src/src/index.ts (`z.number().default(800)`). -/
def indexSchemaMaxWidthDefault : Nat := 800

/-- The advertised `max_height` default in the tool schemas of
src/src/index.ts (`z.number().default(800)`). -/
def indexSchemaMaxHeightDefault : Nat := 800

/-- Model of the external sharp library: a byte buffer is a `List Nat`.
`probe` is `sharp(buf).metadata()`, `resizeBytes` is
`sharp(buf).resize(opts).toBuffer()`, `encodeToFormat` is the
format-specific re-encode (`.jpeg(o)`, `.png(o)`, ... followed by
`toBuffer()`), and `roundtrip` is a bare `sharp(buf).toBuffer()`
(the gif/svg branch).  Each can reject, modelled with `Except`. -/
structure SharpModel where
  probe : List Nat → Except String Metadata
  resizeBytes : List Nat → ResizeOpts → Except String (List Nat)
  encodeToFormat : List Nat → String → CompressOpts → Except String (List Nat)
  roundtrip : List Nat → Except String (List Nat)

/-- An axios GET response: the binary body plus the declared content-type. -/
structure HttpResponse where
  data : List Nat
  contentType : Option String

/-- Model of the puppeteer browser steps the source performs. -/
structure PuppeteerEnv where
  launch : Except String Unit
  goto : String → Except String Unit
  waitSelector : String → Except String Unit
  click : String → Except String Unit
  screenshot : Bool → Except String (List Nat)

/-- The full external environment of one tool invocation, together with the
process configuration (`MAX_IMAGE_SIZE`, `ALLOWED_DOMAINS`). -/
structure Env where
  existsSync : String → Bool
  readFileSync : String → List Nat
  httpGet : String → Except String HttpResponse
  base64Decode : String → List Nat
  sharp : SharpModel
  maxImageSize : Nat
  allowedDomains : List String
  pup : PuppeteerEnv

/-- Parameters of `extractImageFromFile` (src/src/image-utils.ts lines 40-45). -/
structure ExtractImageFromFileParams where
  file_path : String
  resize : Bool
  max_width : Nat
  max_height : Nat

/-- Parameters of `extractImageFromUrl` (src/src/image-utils.ts lines 47-52). -/
structure ExtractImageFromUrlParams where
  url : String
  resize : Bool
  max_width : Nat
  max_height : Nat

/-- Parameters of `extractImageFromBase64` (src/src/image-utils.ts lines 54-60). -/
structure ExtractImageFromBase64Params where
  base64 : String
  mime_type : String
  resize : Bool
  max_width : Nat
  max_height : Nat

/-- Parameters of `extractScreenshotFromUrl` (src/src/image-utils.ts
lines 62-74); the optional selectors are `Option String`. -/
structure ExtractScreenshotFromUrlParams where
  url : String
  viewport_width : Nat
  viewport_height : Nat
  full_page : Bool
  wait_for_load : Nat
  wait_for_selector : Option String
  click_selector : Option String
  click_wait_after : Nat
  resize : Bool
  max_width : Nat
  max_height : Nat

/-- A content block of an MCP tool response (text or inline image). -/
inductive ContentBlock where
  | text (text : String)
  | image (data : String) (mimeType : String)
deriving Repr, DecidableEq

/-- `McpToolResponse`: the content list plus the `isError` flag.  In the
TypeScript type `isError` is optional; an absent flag is falsy and is
modelled as `false`. -/
structure McpToolResponse where
  content : List ContentBlock
  isError : Bool
deriving Repr, DecidableEq

/-- Observable side effects of one invocation, in order of occurrence. -/
inductive Event where
  | fileRead (path : String)
  | fetchUrl (url : String)
  | resizeCall (opts : ResizeOpts)
  | compressionWarning
  | browserLaunch
  | browserClose
deriving Repr, DecidableEq

/-- Whether an event is an invocation of the resize step. -/
def Event.isResizeCall : Event → Bool
  | .resizeCall _ => true
  | _ => false

/-- Whether the first character list begins with the second. -/
def listStarts : List Char → List Char → Bool
  | [], _ => true
  | _ :: _, [] => false
  | p :: ps, c :: cs => p == c && listStarts ps cs

/-- Model of JavaScript `s.startsWith(pre)` on plain strings. -/
def strStarts (s pre : String) : Bool := listStarts pre.data s.data

/-- Model of JavaScript `s.endsWith(suf)` on plain strings. -/
def strEnds (s suf : String) : Bool := listStarts suf.data.reverse s.data.reverse

/-- Whether `pat` occurs as a contiguous substring of the character list. -/
def listContainsSub (pat : List Char) : List Char → Bool
  | [] => pat.isEmpty
  | c :: cs => listStarts pat (c :: cs) || listContainsSub pat cs

/-- Whether `pat` occurs as a contiguous substring of `s`. -/
def strContainsSub (s pat : String) : Bool := listContainsSub pat.data s.data

/-- Split a character list at every occurrence of the separator character. -/
def splitCharAux (sep : Char) : List Char → List Char → List String
  | [], acc => [String.mk acc.reverse]
  | d :: ds, acc =>
      if d == sep then String.mk acc.reverse :: splitCharAux sep ds []
      else splitCharAux sep ds (d :: acc)

/-- Model of JavaScript `s.split(sep)` for a one-character separator. -/
def splitChar (sep : Char) (s : String) : List String := splitCharAux sep s.data []

/-- ASCII lower-casing of one character. -/
def charLower (c : Char) : Char :=
  if 65 ≤ c.toNat && c.toNat ≤ 90 then Char.ofNat (c.toNat + 32) else c

/-- ASCII lower-casing of a string (JavaScript `toLowerCase` on the inputs
the tools see). -/
def strLower (s : String) : String := String.mk (s.data.map charLower)

/-- JavaScript numeric truthiness of a possibly-undefined number:
`undefined` and `0` are falsy. -/
def truthy : Option Nat → Bool
  | some n => n != 0
  | none => false

/-- JavaScript `x || y` for a possibly-undefined string (empty string and
`undefined` are falsy). -/
def jsOr (x : Option String) (y : String) : String :=
  match x with
  | some s => if s = "" then y else s
  | none => y

/-- Base64 alphabet character. -/
def b64char (n : Nat) : Char :=
  ("ABCDEFGHIJKLMNOPQRSTUVWXYZabcdefghijklmnopqrstuvwxyz0123456789+/".data).getD n 'A'

/-- Standard base64 of a byte list (`buffer.toString('base64')`). -/
def base64Encode : List Nat → String
  | [] => ""
  | [a] => String.mk [b64char (a / 4), b64char (a % 4 * 16), '=', '=']
  | [a, b] => String.mk [b64char (a / 4), b64char (a % 4 * 16 + b / 16), b64char (b % 16 * 4), '=']
  | a :: b :: c :: rest =>
      String.mk [b64char (a / 4), b64char (a % 4 * 16 + b / 16),
        b64char (b % 16 * 4 + c / 64), b64char (c % 64)] ++ base64Encode rest

/-- A numeric JSON field, omitted when the value is `undefined`
(`JSON.stringify` drops undefined members). -/
def jsonNumField (key : String) (v : Option Nat) : List String :=
  match v with
  | some n => ["\"" ++ key ++ "\":" ++ toString n]
  | none => []

/-- A string JSON field, omitted when the value is `undefined`. -/
def jsonStrField (key : String) (v : Option String) : List String :=
  match v with
  | some s => ["\"" ++ key ++ "\":\"" ++ s ++ "\""]
  | none => []

/-- `JSON.stringify({width, height, format, size})` as produced by the
success paths of the file, url and base64 tools. -/
def metaJson (width height : Option Nat) (format : Option String) (size : Nat) : String :=
  "\x7b" ++
    String.intercalate ","
      (jsonNumField "width" width ++ jsonNumField "height" height ++
        jsonStrField "format" format ++ ["\"size\":" ++ toString size]) ++
    "\x7d"

/-- JavaScript boolean rendering in JSON. -/
def jsBool (b : Bool) : String := if b then "true" else "false"

/-- `click_selector || null` rendered in JSON (empty string is falsy). -/
def jsonClickSelector (sel : Option String) : String :=
  match sel with
  | some s => if s = "" then "null" else "\"" ++ s ++ "\""
  | none => "null"

/-- The screenshot tool's success JSON (src/src/image-utils.ts lines 641-652):
url, viewport, full_page, click_selector, click_wait_after, then the shared
width/height/format/size fields. -/
def screenshotMetaJson (url : String) (vw vh : Nat) (fullPage : Bool)
    (clickSel : Option String) (clickWait : Nat)
    (width height : Option Nat) (format : Option String) (size : Nat) : String :=
  "\x7b\"url\":\"" ++ url ++ "\",\"viewport\":\x7b\"width\":" ++ toString vw ++
    ",\"height\":" ++ toString vh ++ "\x7d,\"full_page\":" ++ jsBool fullPage ++
    ",\"click_selector\":" ++ jsonClickSelector clickSel ++
    ",\"click_wait_after\":" ++ toString clickWait ++ "," ++
    String.intercalate ","
      (jsonNumField "width" width ++ jsonNumField "height" height ++
        jsonStrField "format" format ++ ["\"size\":" ++ toString size]) ++
    "\x7d"

/-- The legacy success JSON of the part_002 `extract_image_from_url` handler:
base64, mime_type, width, height, format, size inside one text block. -/
def legacyMetaJson (b64 mime : String) (width height : Option Nat)
    (format : Option String) (size : Nat) : String :=
  "\x7b\"base64\":\"" ++ b64 ++ "\",\"mime_type\":\"" ++ mime ++ "\"," ++
    String.intercalate ","
      (jsonNumField "width" width ++ jsonNumField "height" height ++
        jsonStrField "format" format ++ ["\"size\":" ++ toString size]) ++
    "\x7d"

/-- A failure response: one text block and the error flag
(`{ content: [{type:"text", text: msg}], isError: true }`). -/
def errorResp (msg : String) : McpToolResponse := ⟨[.text msg], true⟩

/-- A success response of the file/url/base64 tools: the metadata text block
followed by the inline image block. -/
def successResp (m : Metadata) (buf : List Nat) (mime : String) : McpToolResponse :=
  ⟨[.text (metaJson m.width m.height m.format buf.length),
    .image (base64Encode buf) mime], false⟩

/-- `compressImage` from src/src/image-utils.ts lines 103-133: pick the
format's options when the key is in `COMPRESSION_OPTIONS` and dispatch to the
matching sharp encoder (gif/svg take the bare `toBuffer` path); otherwise
default to jpeg-quality-80. -/
def compressImage (sm : SharpModel) (imageBuffer : List Nat) (formatStr : String) :
    Except String (List Nat) :=
  let format := strLower formatStr
  match COMPRESSION_OPTIONS format with
  | some options =>
      if format = "jpeg" ∨ format = "jpg" then sm.encodeToFormat imageBuffer "jpeg" options
      else if format = "png" then sm.encodeToFormat imageBuffer "png" options
      else if format = "webp" then sm.encodeToFormat imageBuffer "webp" options
      else if format = "avif" then sm.encodeToFormat imageBuffer "avif" options
      else if format = "tiff" then sm.encodeToFormat imageBuffer "tiff" options
      else sm.roundtrip imageBuffer
  | none => sm.encodeToFormat imageBuffer "jpeg" ⟨some 80, none⟩

/-- The shared dimension-bounding block (src/src/image-utils.ts lines
164-183, repeated verbatim at 295-314, 420-439 and 607-623): when the probed
width and height are truthy, clamp each axis to 512 and resize (fit inside,
without enlargement) only if an axis exceeds its clamp, re-probing the buffer
afterwards.  Returns the possibly-new buffer, the current metadata, the
recorded resize invocation if any, and the resize events. -/
def resizeStep (sm : SharpModel) (imageBuffer : List Nat) (metadata : Metadata) :
    Except String (List Nat × Metadata × Option ResizeOpts) × List Event :=
  if truthy metadata.width && truthy metadata.height then
    let w := metadata.width.getD 0
    let h := metadata.height.getD 0
    let targetWidth := min w DEFAULT_MAX_WIDTH
    let targetHeight := min h DEFAULT_MAX_HEIGHT
    if w > targetWidth || h > targetHeight then
      let opts : ResizeOpts := ⟨targetWidth, targetHeight, "inside", true⟩
      match sm.resizeBytes imageBuffer opts with
      | .error e => (.error e, [.resizeCall opts])
      | .ok b2 =>
          match sm.probe b2 with
          | .error e => (.error e, [.resizeCall opts])
          | .ok m2 => (.ok (b2, m2, some opts), [.resizeCall opts])
    else (.ok (imageBuffer, metadata, none), [])
  else (.ok (imageBuffer, metadata, none), [])

/-- One probe-then-bound pass of the normalization pipeline on a raw buffer. -/
def normalizePass (sm : SharpModel) (buf : List Nat) :
    Except String (List Nat × Metadata × Option ResizeOpts) × List Event :=
  match sm.probe buf with
  | .error e => (.error e, [])
  | .ok m => resizeStep sm buf m

/-- `path.extname(p).toLowerCase()` for the file paths the tool sees. -/
def extnameLower (p : String) : String :=
  let base := (splitChar '/' p).getLastD p
  let parts := splitChar '.' base
  if parts.length ≤ 1 then ""
  else if parts.length = 2 && parts.headD "" = "" then ""
  else strLower ("." ++ parts.getLastD "")

/-- The extension-driven mime type and format of `extractImageFromFile`
(src/src/image-utils.ts lines 185-213): the pair (mimeType, format),
defaulting to jpeg. -/
def fileMimeFormat (file_path : String) : String × String :=
  let fileExt := extnameLower file_path
  if fileExt = ".png" then ("image/png", "png")
  else if fileExt = ".jpg" ∨ fileExt = ".jpeg" then ("image/jpeg", "jpeg")
  else if fileExt = ".gif" then ("image/gif", "gif")
  else if fileExt = ".webp" then ("image/webp", "webp")
  else if fileExt = ".svg" then ("image/svg+xml", "svg")
  else if fileExt = ".avif" then ("image/avif", "avif")
  else ("image/jpeg", "jpeg")

/-- Model of Node's WHATWG `new URL(u).hostname` for http(s) URLs: the
authority up to the first slash, query or fragment, with userinfo and port
stripped and the host lowercased. -/
def urlHostname (url : String) : String :=
  let rest :=
    if strStarts url "https://" then String.mk (url.data.drop 8)
    else if strStarts url "http://" then String.mk (url.data.drop 7)
    else url
  let authority := String.mk (rest.data.takeWhile (fun c => !(c == '/' || c == '?' || c == '#')))
  let hostPort := (splitChar '@' authority).getLastD authority
  let host := (splitChar ':' hostPort).headD hostPort
  strLower host

/-- The allow-list membership test of the source
(`domain === allowedDomain || domain.endsWith("." + allowedDomain)`). -/
def domainAllowed (allowed : List String) (domain : String) : Bool :=
  allowed.any fun d => domain == d || strEnds domain ("." ++ d)

/-- `extractImageFromFile` from src/src/image-utils.ts lines 136-252,
returning the response together with the event trace. -/
def extractImageFromFile (env : Env) (params : ExtractImageFromFileParams) :
    McpToolResponse × List Event :=
  let fp := params.file_path
  if !(env.existsSync fp) then
    (errorResp ("Error: " ++ ("File " ++ fp ++ " does not exist")), [])
  else
    let imageBuffer := env.readFileSync fp
    let ev0 : List Event := [.fileRead fp]
    if imageBuffer.length > env.maxImageSize then
      (errorResp ("Error: " ++ ("Image size exceeds maximum allowed size of " ++
        toString env.maxImageSize ++ " bytes")), ev0)
    else
      match env.sharp.probe imageBuffer with
      | .error e => (errorResp ("Error: " ++ e), ev0)
      | .ok metadata =>
          match resizeStep env.sharp imageBuffer metadata with
          | (.error e, evR) => (errorResp ("Error: " ++ e), ev0 ++ evR)
          | (.ok (b2, m2, _), evR) =>
              let mf := fileMimeFormat fp
              match compressImage env.sharp b2 mf.2 with
              | .ok b3 => (successResp m2 b3 mf.1, ev0 ++ evR)
              | .error _ =>
                  (successResp m2 b2 mf.1, ev0 ++ evR ++ [.compressionWarning])

/-- `extractImageFromUrl` from src/src/image-utils.ts lines 255-355. -/
def extractImageFromUrl (env : Env) (params : ExtractImageFromUrlParams) :
    McpToolResponse × List Event :=
  let url := params.url
  if !(strStarts url "http://") && !(strStarts url "https://") then
    (errorResp ("Error: " ++ "URL must start with http:// or https://"), [])
  else if env.allowedDomains.length > 0 &&
      !(domainAllowed env.allowedDomains (urlHostname url)) then
    (errorResp ("Error: " ++ ("Domain " ++ urlHostname url ++
      " is not in the allowed domains list")), [])
  else
    match env.httpGet url with
    | .error e => (errorResp ("Error: " ++ e), [.fetchUrl url])
    | .ok response =>
        match env.sharp.probe response.data with
        | .error e => (errorResp ("Error: " ++ e), [.fetchUrl url])
        | .ok metadata =>
            match resizeStep env.sharp response.data metadata with
            | (.error e, evR) => (errorResp ("Error: " ++ e), .fetchUrl url :: evR)
            | (.ok (b2, m2, _), evR) =>
                let format := jsOr m2.format "jpeg"
                let mime := jsOr response.contentType "image/jpeg"
                match compressImage env.sharp b2 format with
                | .ok b3 => (successResp m2 b3 mime, .fetchUrl url :: evR)
                | .error _ =>
                    (successResp m2 b2 mime, .fetchUrl url :: evR ++ [.compressionWarning])

/-- `extractImageFromBase64` from src/src/image-utils.ts lines 358-489. -/
def extractImageFromBase64 (env : Env) (params : ExtractImageFromBase64Params) :
    McpToolResponse × List Event :=
  let imageBuffer := env.base64Decode params.base64
  if imageBuffer.length = 0 then
    (errorResp ("Error: " ++ ("Invalid base64 string - " ++
      "Invalid base64 string - decoded to empty buffer")), [])
  else if imageBuffer.length > env.maxImageSize then
    (errorResp ("Error: " ++ ("Image size exceeds maximum allowed size of " ++
      toString env.maxImageSize ++ " bytes")), [])
  else
    match env.sharp.probe imageBuffer with
    | .error e => (errorResp ("Error: " ++ ("Could not process image data - " ++ e)), [])
    | .ok metadata =>
        match resizeStep env.sharp imageBuffer metadata with
        | (.error e, evR) => (errorResp ("Error: " ++ e), evR)
        | (.ok (b2, m2, _), evR) =>
            let format := jsOr m2.format
              (jsOr (splitChar '/' params.mime_type)[1]? "jpeg")
            match compressImage env.sharp b2 format with
            | .ok b3 => (successResp m2 b3 params.mime_type, evR)
            | .error _ =>
                (successResp m2 b2 params.mime_type, evR ++ [.compressionWarning])

/-- The screenshot tool's success response: its richer text block plus the
PNG image block. -/
def screenshotSuccessResp (p : ExtractScreenshotFromUrlParams) (m : Metadata)
    (buf : List Nat) : McpToolResponse :=
  ⟨[.text (screenshotMetaJson p.url p.viewport_width p.viewport_height p.full_page
      p.click_selector p.click_wait_after m.width m.height m.format buf.length),
    .image (base64Encode buf) "image/png"], false⟩

/-- `extractScreenshotFromUrl` from src/src/image-utils.ts lines 492-679.
The `wait_for_load` sleep and the try/caught selector-wait and click steps
have no observable effect on the response (their failures are downgraded to
console warnings), so they leave no trace here; the finally block closes the
browser on every exit path reached after a successful launch. -/
def extractScreenshotFromUrl (env : Env) (p : ExtractScreenshotFromUrlParams) :
    McpToolResponse × List Event :=
  if !(strStarts p.url "http://") && !(strStarts p.url "https://") then
    (errorResp ("Error: " ++ "URL must start with http:// or https://"), [])
  else if env.allowedDomains.length > 0 &&
      !(domainAllowed env.allowedDomains (urlHostname p.url)) then
    (errorResp ("Error: " ++ ("Domain " ++ urlHostname p.url ++
      " is not in the allowed domains list")), [])
  else
    match env.pup.launch with
    | .error e => (errorResp ("Error: " ++ e), [.browserLaunch])
    | .ok _ =>
        match env.pup.goto p.url with
        | .error e => (errorResp ("Error: " ++ e), [.browserLaunch, .browserClose])
        | .ok _ =>
            match env.pup.screenshot p.full_page with
            | .error e => (errorResp ("Error: " ++ e), [.browserLaunch, .browserClose])
            | .ok screenshotBuffer =>
                match env.sharp.probe screenshotBuffer with
                | .error e => (errorResp ("Error: " ++ e), [.browserLaunch, .browserClose])
                | .ok metadata =>
                    match resizeStep env.sharp screenshotBuffer metadata with
                    | (.error e, evR) =>
                        (errorResp ("Error: " ++ e),
                          .browserLaunch :: evR ++ [.browserClose])
                    | (.ok (b2, m2, _), evR) =>
                        match compressImage env.sharp b2 "png" with
                        | .ok b3 =>
                            (screenshotSuccessResp p m2 b3,
                              .browserLaunch :: evR ++ [.browserClose])
                        | .error _ =>
                            (screenshotSuccessResp p m2 b2,
                              .browserLaunch :: evR ++ [.compressionWarning, .browserClose])

/-- The legacy `extract_image_from_url` handler of src/unnamed/part_002
(lines 24-109): it honors the caller's resize/max_width/max_height, returns a
single text block on success, and returns failures WITHOUT the `isError`
flag. -/
def legacyExtractImageFromUrl (env : Env) (params : ExtractImageFromUrlParams) :
    McpToolResponse :=
  let url := params.url
  if !(strStarts url "http://") && !(strStarts url "https://") then
    ⟨[.text ("Error: " ++ "URL must start with http:// or https://")], false⟩
  else if env.allowedDomains.length > 0 &&
      !(domainAllowed env.allowedDomains (urlHostname url)) then
    ⟨[.text ("Error: " ++ ("Domain " ++ urlHostname url ++
      " is not in the allowed domains list"))], false⟩
  else
    match env.httpGet url with
    | .error e => ⟨[.text ("Error: " ++ e)], false⟩
    | .ok response =>
        match env.sharp.probe response.data with
        | .error e => ⟨[.text ("Error: " ++ e)], false⟩
        | .ok metadata =>
            let proceed := fun (b2 : List Nat) (m2 : Metadata) =>
              let mime := jsOr response.contentType "image/jpeg"
              (⟨[.text (legacyMetaJson (base64Encode b2) mime m2.width m2.height
                  m2.format b2.length)], false⟩ : McpToolResponse)
            if params.resize && (truthy metadata.width && truthy metadata.height) then
              let w := metadata.width.getD 0
              let h := metadata.height.getD 0
              if w > params.max_width || h > params.max_height then
                let opts : ResizeOpts :=
                  ⟨min w params.max_width, min h params.max_height, "inside", true⟩
                match env.sharp.resizeBytes response.data opts with
                | .error e => ⟨[.text ("Error: " ++ e)], false⟩
                | .ok b2 =>
                    match env.sharp.probe b2 with
                    | .error e => ⟨[.text ("Error: " ++ e)], false⟩
                    | .ok m2 => proceed b2 m2
              else proceed response.data metadata
            else proceed response.data metadata

/-- Round-to-nearest division (half away from zero), the integer pixel
rounding of the fit-inside contract. -/
def rdiv (a b : Nat) : Nat := (2 * a + b) / (2 * b)

/-- Modelled from the spec: the external sharp library's
`fit: 'inside', withoutEnlargement: true` resize semantics (spec section
4.3 step 3): never enlarge; otherwise clamp the binding dimension to its
bound and scale the other proportionally, rounded to an integer. -/
def fitInside (w h tw th : Nat) : Nat × Nat :=
  if w ≤ tw && h ≤ th then (w, h)
  else if h * tw ≤ w * th then (tw, rdiv (h * tw) w)
  else (rdiv (w * th) h, th)

/-- A sharp model is faithful when re-probing a resized buffer reports the
fit-inside dimensions of the original, with the format preserved — the
delegation contract the spec states for the external imaging library. -/
def SharpModel.faithful (sm : SharpModel) : Prop :=
  ∀ buf w h f opts b2,
    sm.probe buf = .ok ⟨some w, some h, f⟩ →
    sm.resizeBytes buf opts = .ok b2 →
    sm.probe b2 = .ok ⟨some (fitInside w h opts.width opts.height).1,
      some (fitInside w h opts.width opts.height).2, f⟩

/-- A concrete sharp model for witnesses: a decodable buffer is a two-element
list `[w, h]` probed as a w×h PNG; resize applies `fitInside`; re-encoding is
the identity. -/
def demoSharp : SharpModel where
  probe := fun b =>
    match b with
    | [w, h] => .ok ⟨some w, some h, some "png"⟩
    | _ => .error "Input buffer contains unsupported image format"
  resizeBytes := fun b o =>
    match b with
    | [w, h] => .ok [(fitInside w h o.width o.height).1, (fitInside w h o.width o.height).2]
    | _ => .error "resize failed"
  encodeToFormat := fun b _ _ => .ok b
  roundtrip := fun b => .ok b

/-- A no-op puppeteer environment whose screenshot is a 400×300 demo buffer. -/
def demoPup : PuppeteerEnv where
  launch := .ok ()
  goto := fun _ => .ok ()
  waitSelector := fun _ => .ok ()
  click := fun _ => .ok ()
  screenshot := fun _ => .ok [400, 300]

/-- A witness environment: every source yields a 400×300 image, no allow-list. -/
def demoEnv : Env where
  existsSync := fun _ => true
  readFileSync := fun _ => [400, 300]
  httpGet := fun _ => .ok ⟨[400, 300], some "image/png"⟩
  base64Decode := fun _ => [400, 300]
  sharp := demoSharp
  maxImageSize := 10485760
  allowedDomains := []
  pup := demoPup

/-- A witness environment serving a 1920×1080 image over HTTP. -/
def demoEnv1920 : Env where
  existsSync := fun _ => true
  readFileSync := fun _ => [1920, 1080]
  httpGet := fun _ => .ok ⟨[1920, 1080], some "image/png"⟩
  base64Decode := fun _ => [1920, 1080]
  sharp := demoSharp
  maxImageSize := 10485760
  allowedDomains := []
  pup := demoPup

/-- An environment with `ALLOWED_DOMAINS=example.com`. -/
def allowListEnv : Env where
  existsSync := fun _ => true
  readFileSync := fun _ => [400, 300]
  httpGet := fun _ => .ok ⟨[400, 300], some "image/png"⟩
  base64Decode := fun _ => [400, 300]
  sharp := demoSharp
  maxImageSize := 10485760
  allowedDomains := ["example.com"]
  pup := demoPup

/-- A sharp model whose re-encoders always reject, for exercising the
compression-failure path. -/
def failCompressSharp : SharpModel where
  probe := demoSharp.probe
  resizeBytes := demoSharp.resizeBytes
  encodeToFormat := fun _ _ _ => .error "unsupported output format"
  roundtrip := fun _ => .error "unsupported output format"

/-- Environment for the compression-failure witnesses. -/
def failCompressEnv : Env where
  existsSync := fun _ => true
  readFileSync := fun _ => [400, 300]
  httpGet := fun _ => .ok ⟨[400, 300], some "image/png"⟩
  base64Decode := fun _ => [400, 300]
  sharp := failCompressSharp
  maxImageSize := 10485760
  allowedDomains := []
  pup := demoPup

/-- A sharp model that probes every buffer with undefined dimensions and
whose re-encoding succeeds but changes the bytes to `[1, 2, 3]`. -/
def noDimsSharp : SharpModel where
  probe := fun _ => .ok ⟨none, none, some "png"⟩
  resizeBytes := fun _ _ => .error "resize failed"
  encodeToFormat := fun _ _ _ => .ok [1, 2, 3]
  roundtrip := fun _ => .ok [1, 2, 3]

/-- Environment for the undefined-dimensions counterexample: the acquired
file bytes are `[7]`. -/
def noDimsEnv : Env where
  existsSync := fun _ => true
  readFileSync := fun _ => [7]
  httpGet := fun _ => .ok ⟨[7], some "image/png"⟩
  base64Decode := fun _ => [7]
  sharp := noDimsSharp
  maxImageSize := 10485760
  allowedDomains := []
  pup := demoPup

end ImageExtractor

namespace ImageExtractor

/-- Rounded division stays below a bound reached by the exact quotient. -/
theorem rdiv_le (a b t : Nat) (hb : 0 < b) (h : a ≤ b * t) : rdiv a b ≤ t := by
  have h2 : 2 * a + b < (t + 1) * (2 * b) := by nlinarith
  have h3 := (Nat.div_lt_iff_lt_mul (by omega : 0 < 2 * b)).2 h2
  unfold rdiv
  omega

/-- Fit-inside resizing never exceeds either target bound. -/
theorem fitInside_le (w h tw th : Nat) (hw : 0 < w) (hh : 0 < h) :
    (fitInside w h tw th).1 ≤ tw ∧ (fitInside w h tw th).2 ≤ th := by
  unfold fitInside
  split
  · next hc =>
      simp only [Bool.and_eq_true, decide_eq_true_eq] at hc
      exact ⟨hc.1, hc.2⟩
  · split
    · next hc2 =>
        refine ⟨le_refl tw, ?_⟩
        exact rdiv_le (h * tw) w th hw (by nlinarith [hc2])
    · next hc2 =>
        refine ⟨?_, le_refl th⟩
        have : w * th ≤ h * tw := le_of_not_le (by omega)
        exact rdiv_le (w * th) h tw hh (by nlinarith [this])

/-- When both probed dimensions are within the 512 bound, the shared
dimension-bounding block leaves the buffer and metadata untouched and
records no resize invocation. -/
theorem resizeStep_skip_of_le (sm : SharpModel) (b : List Nat) (w h : Nat)
    (f : Option String) (hw : w ≤ 512) (hh : h ≤ 512) :
    resizeStep sm b ⟨some w, some h, f⟩ = (.ok (b, ⟨some w, some h, f⟩, none), []) := by
  have hmw : min w DEFAULT_MAX_WIDTH = w := Nat.min_eq_left hw
  have hmh : min h DEFAULT_MAX_HEIGHT = h := Nat.min_eq_left hh
  unfold resizeStep
  simp [truthy, hmw, hmh]

/-- When truthiness of the probed dimensions fails (zero or undefined axis),
the dimension-bounding block is skipped entirely. -/
theorem resizeStep_skip_not_truthy (sm : SharpModel) (b : List Nat) (m : Metadata)
    (hm : (truthy m.width && truthy m.height) = false) :
    resizeStep sm b m = (.ok (b, m, none), []) := by
  unfold resizeStep
  simp [hm]

/-- The demo sharp model satisfies the fit-inside delegation contract. -/
theorem demoSharp_faithful : SharpModel.faithful demoSharp := by
  intro buf w h f opts b2 hp hr
  rcases buf with _ | ⟨a, _ | ⟨b1, _ | ⟨c, rest⟩⟩⟩
  · simp [demoSharp] at hp
  · simp [demoSharp] at hp
  · simp only [demoSharp, Except.ok.injEq, Metadata.mk.injEq, Option.some.injEq] at hp hr
    obtain ⟨h1, h2, h3⟩ := hp
    subst h1; subst h2
    rw [← h3, ← hr]
    simp [demoSharp]
  · simp [demoSharp] at hp

/-- File pipeline on an image already within the 512 bound: success, original
dimensions reported, no resize invocation. -/
theorem extractImageFromFile_small (env : Env) (fp : String) (r : Bool) (mw mh : Nat)
    (bf : List Nat) (w h : Nat) (f : Option String)
    (h1 : env.existsSync fp = true)
    (h2 : env.readFileSync fp = bf)
    (h3 : ¬ bf.length > env.maxImageSize)
    (h4 : env.sharp.probe bf = .ok ⟨some w, some h, f⟩)
    (h5 : w ≤ 512) (h6 : h ≤ 512) :
    (extractImageFromFile env ⟨fp, r, mw, mh⟩).1.isError = false ∧
    (∃ n, (extractImageFromFile env ⟨fp, r, mw, mh⟩).1.content.head? =
      some (.text (metaJson (some w) (some h) f n))) ∧
    ((extractImageFromFile env ⟨fp, r, mw, mh⟩).2.all fun e => !e.isResizeCall) = true := by
  have hrs := resizeStep_skip_of_le env.sharp bf w h f h5 h6
  rcases hc : compressImage env.sharp bf (fileMimeFormat fp).2 with e | b3 <;>
    simp [extractImageFromFile, h1, h2, h3, h4, hrs, hc, successResp, Event.isResizeCall]

/-- URL pipeline on an image already within the 512 bound. -/
theorem extractImageFromUrl_small (env : Env) (u : String) (r : Bool) (mw mh : Nat)
    (resp : HttpResponse) (w h : Nat) (f : Option String)
    (h1 : (!(strStarts u "http://") && !(strStarts u "https://")) = false)
    (h2 : (env.allowedDomains.length > 0 &&
      !(domainAllowed env.allowedDomains (urlHostname u))) = false)
    (h3 : env.httpGet u = .ok resp)
    (h4 : env.sharp.probe resp.data = .ok ⟨some w, some h, f⟩)
    (h5 : w ≤ 512) (h6 : h ≤ 512) :
    (extractImageFromUrl env ⟨u, r, mw, mh⟩).1.isError = false ∧
    (∃ n, (extractImageFromUrl env ⟨u, r, mw, mh⟩).1.content.head? =
      some (.text (metaJson (some w) (some h) f n))) ∧
    ((extractImageFromUrl env ⟨u, r, mw, mh⟩).2.all fun e => !e.isResizeCall) = true := by
  have hrs := resizeStep_skip_of_le env.sharp resp.data w h f h5 h6
  rcases hc : compressImage env.sharp resp.data (jsOr f "jpeg") with e | b3 <;>
    simp [extractImageFromUrl, h1, h2, h3, h4, hrs, hc, successResp, Event.isResizeCall]

/-- Base64 pipeline on an image already within the 512 bound. -/
theorem extractImageFromBase64_small (env : Env) (s mt : String) (r : Bool) (mw mh : Nat)
    (bb : List Nat) (w h : Nat) (f : Option String)
    (h1 : env.base64Decode s = bb)
    (h2 : ¬ bb.length = 0)
    (h3 : ¬ bb.length > env.maxImageSize)
    (h4 : env.sharp.probe bb = .ok ⟨some w, some h, f⟩)
    (h5 : w ≤ 512) (h6 : h ≤ 512) :
    (extractImageFromBase64 env ⟨s, mt, r, mw, mh⟩).1.isError = false ∧
    (∃ n, (extractImageFromBase64 env ⟨s, mt, r, mw, mh⟩).1.content.head? =
      some (.text (metaJson (some w) (some h) f n))) ∧
    ((extractImageFromBase64 env ⟨s, mt, r, mw, mh⟩).2.all fun e => !e.isResizeCall) = true := by
  have hrs := resizeStep_skip_of_le env.sharp bb w h f h5 h6
  rcases hc : compressImage env.sharp bb
      (jsOr f (jsOr (splitChar '/' mt)[1]? "jpeg")) with e | b3 <;>
    simp [extractImageFromBase64, h1, h2, h3, h4, hrs, hc, successResp, Event.isResizeCall]

/-- Screenshot pipeline on a capture already within the 512 bound. -/
theorem extractScreenshotFromUrl_small (env : Env) (p : ExtractScreenshotFromUrlParams)
    (bs : List Nat) (w h : Nat) (f : Option String)
    (h1 : (!(strStarts p.url "http://") && !(strStarts p.url "https://")) = false)
    (h2 : (env.allowedDomains.length > 0 &&
      !(domainAllowed env.allowedDomains (urlHostname p.url))) = false)
    (h3 : env.pup.launch = .ok ())
    (h4 : env.pup.goto p.url = .ok ())
    (h5 : env.pup.screenshot p.full_page = .ok bs)
    (h6 : env.sharp.probe bs = .ok ⟨some w, some h, f⟩)
    (h7 : w ≤ 512) (h8 : h ≤ 512) :
    (extractScreenshotFromUrl env p).1.isError = false ∧
    (∃ n, (extractScreenshotFromUrl env p).1.content.head? =
      some (.text (screenshotMetaJson p.url p.viewport_width p.viewport_height
        p.full_page p.click_selector p.click_wait_after (some w) (some h) f n))) ∧
    ((extractScreenshotFromUrl env p).2.all fun e => !e.isResizeCall) = true := by
  have hrs := resizeStep_skip_of_le env.sharp bs w h f h7 h8
  rcases hc : compressImage env.sharp bs "png" with e | b3 <;>
    simp [extractScreenshotFromUrl, h1, h2, h3, h4, h5, h6, hrs, hc,
      screenshotSuccessResp, Event.isResizeCall]

/-- Claim C1: for every image whose probed intrinsic width and height are
both defined and at most 512, none of the four extraction pipelines invokes
the resize step, and the success response reports the original intrinsic
dimensions. -/
theorem c1_small_images_no_resize (env : Env) (fp u s mt : String)
    (p : ExtractScreenshotFromUrlParams) (r : Bool) (mw mh : Nat)
    (bf bb bs : List Nat) (resp : HttpResponse)
    (wf hf wu hu wb hb ws hs : Nat) (ff fu fb fs : Option String)
    (f1 : env.existsSync fp = true)
    (f2 : env.readFileSync fp = bf)
    (f3 : ¬ bf.length > env.maxImageSize)
    (f4 : env.sharp.probe bf = .ok ⟨some wf, some hf, ff⟩)
    (f5 : wf ≤ 512) (f6 : hf ≤ 512)
    (u1 : (!(strStarts u "http://") && !(strStarts u "https://")) = false)
    (u2 : (env.allowedDomains.length > 0 &&
      !(domainAllowed env.allowedDomains (urlHostname u))) = false)
    (u3 : env.httpGet u = .ok resp)
    (u4 : env.sharp.probe resp.data = .ok ⟨some wu, some hu, fu⟩)
    (u5 : wu ≤ 512) (u6 : hu ≤ 512)
    (b1 : env.base64Decode s = bb)
    (b2 : ¬ bb.length = 0)
    (b3 : ¬ bb.length > env.maxImageSize)
    (b4 : env.sharp.probe bb = .ok ⟨some wb, some hb, fb⟩)
    (b5 : wb ≤ 512) (b6 : hb ≤ 512)
    (s1 : (!(strStarts p.url "http://") && !(strStarts p.url "https://")) = false)
    (s2 : (env.allowedDomains.length > 0 &&
      !(domainAllowed env.allowedDomains (urlHostname p.url))) = false)
    (s3 : env.pup.launch = .ok ())
    (s4 : env.pup.goto p.url = .ok ())
    (s5 : env.pup.screenshot p.full_page = .ok bs)
    (s6 : env.sharp.probe bs = .ok ⟨some ws, some hs, fs⟩)
    (s7 : ws ≤ 512) (s8 : hs ≤ 512) :
    ((extractImageFromFile env ⟨fp, r, mw, mh⟩).1.isError = false ∧
     (∃ n, (extractImageFromFile env ⟨fp, r, mw, mh⟩).1.content.head? =
       some (.text (metaJson (some wf) (some hf) ff n))) ∧
     ((extractImageFromFile env ⟨fp, r, mw, mh⟩).2.all fun e => !e.isResizeCall) = true) ∧
    ((extractImageFromUrl env ⟨u, r, mw, mh⟩).1.isError = false ∧
     (∃ n, (extractImageFromUrl env ⟨u, r, mw, mh⟩).1.content.head? =
       some (.text (metaJson (some wu) (some hu) fu n))) ∧
     ((extractImageFromUrl env ⟨u, r, mw, mh⟩).2.all fun e => !e.isResizeCall) = true) ∧
    ((extractImageFromBase64 env ⟨s, mt, r, mw, mh⟩).1.isError = false ∧
     (∃ n, (extractImageFromBase64 env ⟨s, mt, r, mw, mh⟩).1.content.head? =
       some (.text (metaJson (some wb) (some hb) fb n))) ∧
     ((extractImageFromBase64 env ⟨s, mt, r, mw, mh⟩).2.all fun e => !e.isResizeCall) = true) ∧
    ((extractScreenshotFromUrl env p).1.isError = false ∧
     (∃ n, (extractScreenshotFromUrl env p).1.content.head? =
       some (.text (screenshotMetaJson p.url p.viewport_width p.viewport_height
         p.full_page p.click_selector p.click_wait_after (some ws) (some hs) fs n))) ∧
     ((extractScreenshotFromUrl env p).2.all fun e => !e.isResizeCall) = true) :=
  ⟨extractImageFromFile_small env fp r mw mh bf wf hf ff f1 f2 f3 f4 f5 f6,
   extractImageFromUrl_small env u r mw mh resp wu hu fu u1 u2 u3 u4 u5 u6,
   extractImageFromBase64_small env s mt r mw mh bb wb hb fb b1 b2 b3 b4 b5 b6,
   extractScreenshotFromUrl_small env p bs ws hs fs s1 s2 s3 s4 s5 s6 s7 s8⟩

/-- Witness for C1 at a concrete 400x300 image in every pipeline. -/
theorem c1_small_images_no_resize_witness :
    demoEnv.existsSync "a.png" = true ∧
    demoEnv.readFileSync "a.png" = [400, 300] ∧
    ¬ ([400, 300] : List Nat).length > demoEnv.maxImageSize ∧
    demoEnv.sharp.probe [400, 300] = .ok ⟨some 400, some 300, some "png"⟩ ∧
    (400 ≤ 512 ∧ 300 ≤ 512) ∧
    (!(strStarts "https://img.example.com/a.png" "http://") &&
      !(strStarts "https://img.example.com/a.png" "https://")) = false ∧
    (demoEnv.allowedDomains.length > 0 && !(domainAllowed demoEnv.allowedDomains
      (urlHostname "https://img.example.com/a.png"))) = false ∧
    demoEnv.httpGet "https://img.example.com/a.png" =
      .ok ⟨[400, 300], some "image/png"⟩ ∧
    demoEnv.base64Decode "QUJD" = [400, 300] ∧
    ¬ ([400, 300] : List Nat).length = 0 ∧
    demoEnv.pup.launch = .ok () ∧
    demoEnv.pup.goto "https://example.com" = .ok () ∧
    demoEnv.pup.screenshot true = .ok [400, 300] ∧
    (((extractImageFromFile demoEnv ⟨"a.png", true, 800, 800⟩).1.isError = false ∧
      (∃ n, (extractImageFromFile demoEnv ⟨"a.png", true, 800, 800⟩).1.content.head? =
        some (.text (metaJson (some 400) (some 300) (some "png") n))) ∧
      ((extractImageFromFile demoEnv ⟨"a.png", true, 800, 800⟩).2.all
        fun e => !e.isResizeCall) = true) ∧
     ((extractImageFromUrl demoEnv ⟨"https://img.example.com/a.png", true, 800, 800⟩).1.isError = false ∧
      (∃ n, (extractImageFromUrl demoEnv
          ⟨"https://img.example.com/a.png", true, 800, 800⟩).1.content.head? =
        some (.text (metaJson (some 400) (some 300) (some "png") n))) ∧
      ((extractImageFromUrl demoEnv
          ⟨"https://img.example.com/a.png", true, 800, 800⟩).2.all
        fun e => !e.isResizeCall) = true) ∧
     ((extractImageFromBase64 demoEnv ⟨"QUJD", "image/png", true, 800, 800⟩).1.isError = false ∧
      (∃ n, (extractImageFromBase64 demoEnv
          ⟨"QUJD", "image/png", true, 800, 800⟩).1.content.head? =
        some (.text (metaJson (some 400) (some 300) (some "png") n))) ∧
      ((extractImageFromBase64 demoEnv ⟨"QUJD", "image/png", true, 800, 800⟩).2.all
        fun e => !e.isResizeCall) = true) ∧
     ((extractScreenshotFromUrl demoEnv
         ⟨"https://example.com", 1920, 1080, true, 2000, none, none, 500, true, 512, 512⟩).1.isError = false ∧
      (∃ n, (extractScreenshotFromUrl demoEnv
          ⟨"https://example.com", 1920, 1080, true, 2000, none, none, 500, true, 512, 512⟩).1.content.head? =
        some (.text (screenshotMetaJson "https://example.com" 1920 1080 true none 500
          (some 400) (some 300) (some "png") n))) ∧
      ((extractScreenshotFromUrl demoEnv
          ⟨"https://example.com", 1920, 1080, true, 2000, none, none, 500, true, 512, 512⟩).2.all
        fun e => !e.isResizeCall) = true)) :=
  ⟨rfl, rfl, by decide, rfl, ⟨by decide, by decide⟩, rfl, rfl, rfl, rfl, by decide,
   rfl, rfl, rfl,
   c1_small_images_no_resize demoEnv "a.png" "https://img.example.com/a.png" "QUJD"
     "image/png" ⟨"https://example.com", 1920, 1080, true, 2000, none, none, 500, true, 512, 512⟩
     true 800 800 [400, 300] [400, 300] [400, 300] ⟨[400, 300], some "image/png"⟩
     400 300 400 300 400 300 400 300 (some "png") (some "png") (some "png") (some "png")
     rfl rfl (by decide) rfl (by decide) (by decide)
     rfl rfl rfl rfl (by decide) (by decide)
     rfl (by decide) (by decide) rfl (by decide) (by decide)
     rfl rfl rfl rfl rfl rfl (by decide) (by decide)⟩

/-- Claim C2 (code evaluation at the failing input): for a 1920x1080 image
fetched via the URL pipeline, the resize step is invoked with target
width 512 and height 512 (fit inside) — not height 288 as the claim and the
repository's own tests state — while the response metadata does report
512x288. -/
theorem c2_resize_target_1920x1080 :
    extractImageFromUrl demoEnv1920 ⟨"https://example.com/a.png", true, 800, 800⟩ =
      (⟨[.text (metaJson (some 512) (some 288) (some "png") 2),
         .image (base64Encode [512, 288]) "image/png"], false⟩,
       [.fetchUrl "https://example.com/a.png",
        .resizeCall ⟨512, 512, "inside", true⟩]) ∧
    (ResizeOpts.mk 512 512 "inside" true).height ≠ 288 :=
  ⟨rfl, by decide⟩

/-- Claim C3: two calls to any extraction tool that differ only in the
`resize`, `max_width` and `max_height` parameters return identical results;
the effective bound is the internal constant 512 even though the tool schema
advertises a default of 800. -/
theorem c3_sizing_params_ignored (env : Env) (fp u s mt su : String)
    (vw vh : Nat) (fpg : Bool) (wl : Nat) (wsel csel : Option String) (cw : Nat)
    (r1 r2 : Bool) (mw1 mh1 mw2 mh2 : Nat) :
    extractImageFromFile env ⟨fp, r1, mw1, mh1⟩ =
      extractImageFromFile env ⟨fp, r2, mw2, mh2⟩ ∧
    extractImageFromUrl env ⟨u, r1, mw1, mh1⟩ =
      extractImageFromUrl env ⟨u, r2, mw2, mh2⟩ ∧
    extractImageFromBase64 env ⟨s, mt, r1, mw1, mh1⟩ =
      extractImageFromBase64 env ⟨s, mt, r2, mw2, mh2⟩ ∧
    extractScreenshotFromUrl env ⟨su, vw, vh, fpg, wl, wsel, csel, cw, r1, mw1, mh1⟩ =
      extractScreenshotFromUrl env ⟨su, vw, vh, fpg, wl, wsel, csel, cw, r2, mw2, mh2⟩ ∧
    DEFAULT_MAX_WIDTH = 512 ∧ DEFAULT_MAX_HEIGHT = 512 ∧
    indexSchemaMaxWidthDefault = 800 ∧ indexSchemaMaxHeightDefault = 800 :=
  ⟨rfl, rfl, rfl, rfl, rfl, rfl, rfl, rfl⟩

/-- Claim C5: a URL-sourced request that fails Policy Guard validation (bad
scheme, or hostname rejected by a non-empty allow-list) is rejected with an
empty event trace: no network fetch and no browser launch happen. -/
theorem c5_policy_rejection_before_io (env : Env) (u1 u2 : String) (r : Bool)
    (mw mh : Nat) (p1 p2 : ExtractScreenshotFromUrlParams)
    (h1 : (!(strStarts u1 "http://") && !(strStarts u1 "https://")) = true)
    (h2 : (!(strStarts u2 "http://") && !(strStarts u2 "https://")) = false)
    (h3 : (env.allowedDomains.length > 0 &&
      !(domainAllowed env.allowedDomains (urlHostname u2))) = true)
    (h4 : p1.url = u1) (h5 : p2.url = u2) :
    extractImageFromUrl env ⟨u1, r, mw, mh⟩ =
      (errorResp ("Error: " ++ "URL must start with http:// or https://"), []) ∧
    extractImageFromUrl env ⟨u2, r, mw, mh⟩ =
      (errorResp ("Error: " ++ ("Domain " ++ urlHostname u2 ++
        " is not in the allowed domains list")), []) ∧
    extractScreenshotFromUrl env p1 =
      (errorResp ("Error: " ++ "URL must start with http:// or https://"), []) ∧
    extractScreenshotFromUrl env p2 =
      (errorResp ("Error: " ++ ("Domain " ++ urlHostname u2 ++
        " is not in the allowed domains list")), []) := by
  refine ⟨?_, ?_, ?_, ?_⟩
  · simp [extractImageFromUrl, h1]
  · simp [extractImageFromUrl, h2, h3]
  · simp [extractScreenshotFromUrl, h4, h1]
  · simp [extractScreenshotFromUrl, h5, h2, h3]

/-- Witness for C5 at a concrete ftp:// URL and a concrete disallowed host
under the example.com allow-list. -/
theorem c5_policy_rejection_before_io_witness :
    (!(strStarts "ftp://files.example.com/a.png" "http://") &&
      !(strStarts "ftp://files.example.com/a.png" "https://")) = true ∧
    (!(strStarts "https://evil.com/x.png" "http://") &&
      !(strStarts "https://evil.com/x.png" "https://")) = false ∧
    (allowListEnv.allowedDomains.length > 0 &&
      !(domainAllowed allowListEnv.allowedDomains
        (urlHostname "https://evil.com/x.png"))) = true ∧
    (extractImageFromUrl allowListEnv ⟨"ftp://files.example.com/a.png", true, 800, 800⟩ =
      (errorResp ("Error: " ++ "URL must start with http:// or https://"), []) ∧
     extractImageFromUrl allowListEnv ⟨"https://evil.com/x.png", true, 800, 800⟩ =
      (errorResp ("Error: " ++ ("Domain " ++ urlHostname "https://evil.com/x.png" ++
        " is not in the allowed domains list")), []) ∧
     extractScreenshotFromUrl allowListEnv
       ⟨"ftp://files.example.com/a.png", 1920, 1080, true, 2000, none, none, 500, true, 512, 512⟩ =
      (errorResp ("Error: " ++ "URL must start with http:// or https://"), []) ∧
     extractScreenshotFromUrl allowListEnv
       ⟨"https://evil.com/x.png", 1920, 1080, true, 2000, none, none, 500, true, 512, 512⟩ =
      (errorResp ("Error: " ++ ("Domain " ++ urlHostname "https://evil.com/x.png" ++
        " is not in the allowed domains list")), [])) :=
  ⟨by decide, by decide, by decide,
   c5_policy_rejection_before_io allowListEnv "ftp://files.example.com/a.png"
     "https://evil.com/x.png" true 800 800
     ⟨"ftp://files.example.com/a.png", 1920, 1080, true, 2000, none, none, 500, true, 512, 512⟩
     ⟨"https://evil.com/x.png", 1920, 1080, true, 2000, none, none, 500, true, 512, 512⟩
     (by decide) (by decide) (by decide) rfl rfl⟩

/-- Claim C4 (amended): with a non-empty allow-list, a URL request is
accepted (proceeds to acquisition) iff its hostname equals an allowed entry
or ends with "." followed by one; a rejected request returns a Failure whose
message names the rejected hostname and refers to the allowed domains list
(it does not enumerate the allowed entries). -/
theorem c4_allowlist_subdomain_matching (env : Env) (u : String) (r : Bool)
    (mw mh : Nat) (p : ExtractScreenshotFromUrlParams)
    (hscheme : (!(strStarts u "http://") && !(strStarts u "https://")) = false)
    (hp : p.url = u)
    (hne : env.allowedDomains ≠ []) :
    (domainAllowed env.allowedDomains (urlHostname u) = true ↔
      ∃ d ∈ env.allowedDomains,
        urlHostname u = d ∨ strEnds (urlHostname u) ("." ++ d) = true) ∧
    (domainAllowed env.allowedDomains (urlHostname u) = false →
      extractImageFromUrl env ⟨u, r, mw, mh⟩ =
        (errorResp ("Error: " ++ ("Domain " ++ urlHostname u ++
          " is not in the allowed domains list")), []) ∧
      extractScreenshotFromUrl env p =
        (errorResp ("Error: " ++ ("Domain " ++ urlHostname u ++
          " is not in the allowed domains list")), [])) ∧
    (domainAllowed env.allowedDomains (urlHostname u) = true →
      (extractImageFromUrl env ⟨u, r, mw, mh⟩).2.head? = some (.fetchUrl u) ∧
      (extractScreenshotFromUrl env p).2.head? = some .browserLaunch) := by
  have hlen : 0 < env.allowedDomains.length := List.length_pos.2 hne
  refine ⟨?_, ?_, ?_⟩
  · simp [domainAllowed, List.any_eq_true]
  · intro hd
    constructor
    · simp [extractImageFromUrl, hscheme, hd, hlen]
    · simp [extractScreenshotFromUrl, hp, hscheme, hd, hlen]
  · intro hd
    constructor
    · rcases hg : env.httpGet u with e | resp
      · simp [extractImageFromUrl, hscheme, hd, hlen, hg]
      · rcases hpr : env.sharp.probe resp.data with e2 | m
        · simp [extractImageFromUrl, hscheme, hd, hlen, hg, hpr]
        · rcases hrs : resizeStep env.sharp resp.data m with ⟨res, evR⟩
          rcases res with e3 | ⟨b2, m2, rc⟩
          · simp [extractImageFromUrl, hscheme, hd, hlen, hg, hpr, hrs]
          · rcases hcp : compressImage env.sharp b2 (jsOr m2.format "jpeg") with e4 | b3 <;>
              simp [extractImageFromUrl, hscheme, hd, hlen, hg, hpr, hrs, hcp]
    · rcases hl : env.pup.launch with e | u0
      · simp [extractScreenshotFromUrl, hp, hscheme, hd, hlen, hl]
      · rcases hgo : env.pup.goto u with e2 | u1
        · simp [extractScreenshotFromUrl, hp, hscheme, hd, hlen, hl, hgo]
        · rcases hsc : env.pup.screenshot p.full_page with e3 | bs
          · simp [extractScreenshotFromUrl, hp, hscheme, hd, hlen, hl, hgo, hsc]
          · rcases hpr : env.sharp.probe bs with e4 | m
            · simp [extractScreenshotFromUrl, hp, hscheme, hd, hlen, hl, hgo, hsc, hpr]
            · rcases hrs : resizeStep env.sharp bs m with ⟨res, evR⟩
              rcases res with e5 | ⟨b2, m2, rc⟩
              · simp [extractScreenshotFromUrl, hp, hscheme, hd, hlen, hl, hgo, hsc, hpr, hrs]
              · rcases hcp : compressImage env.sharp b2 "png" with e6 | b3 <;>
                  simp [extractScreenshotFromUrl, hp, hscheme, hd, hlen, hl, hgo, hsc,
                    hpr, hrs, hcp]

/-- Counterexample to C4 as stated: under `ALLOWED_DOMAINS=example.com`, the
rejection message for evil.com names the rejected hostname but does not
contain the allowed entry, so it does not name the list of allowed domains. -/
theorem c4_error_message_counterexample :
    allowListEnv.allowedDomains = ["example.com"] ∧
    extractImageFromUrl allowListEnv ⟨"https://evil.com/x.png", true, 800, 800⟩ =
      (errorResp "Error: Domain evil.com is not in the allowed domains list", []) ∧
    strContainsSub "Error: Domain evil.com is not in the allowed domains list"
      "example.com" = false :=
  ⟨rfl, rfl, by decide⟩

/-- Witness for C4 at the spec's example: cdn.example.com is accepted as a
subdomain of example.com. -/
theorem c4_allowlist_subdomain_matching_witness :
    (!(strStarts "https://cdn.example.com/x.png" "http://") &&
      !(strStarts "https://cdn.example.com/x.png" "https://")) = false ∧
    allowListEnv.allowedDomains ≠ [] ∧
    ((domainAllowed allowListEnv.allowedDomains
        (urlHostname "https://cdn.example.com/x.png") = true ↔
      ∃ d ∈ allowListEnv.allowedDomains,
        urlHostname "https://cdn.example.com/x.png" = d ∨
        strEnds (urlHostname "https://cdn.example.com/x.png") ("." ++ d) = true) ∧
     (domainAllowed allowListEnv.allowedDomains
        (urlHostname "https://cdn.example.com/x.png") = false →
      extractImageFromUrl allowListEnv ⟨"https://cdn.example.com/x.png", true, 800, 800⟩ =
        (errorResp ("Error: " ++ ("Domain " ++ urlHostname "https://cdn.example.com/x.png" ++
          " is not in the allowed domains list")), []) ∧
      extractScreenshotFromUrl allowListEnv
        ⟨"https://cdn.example.com/x.png", 1920, 1080, true, 2000, none, none, 500, true, 512, 512⟩ =
        (errorResp ("Error: " ++ ("Domain " ++ urlHostname "https://cdn.example.com/x.png" ++
          " is not in the allowed domains list")), [])) ∧
     (domainAllowed allowListEnv.allowedDomains
        (urlHostname "https://cdn.example.com/x.png") = true →
      (extractImageFromUrl allowListEnv
        ⟨"https://cdn.example.com/x.png", true, 800, 800⟩).2.head? =
        some (.fetchUrl "https://cdn.example.com/x.png") ∧
      (extractScreenshotFromUrl allowListEnv
        ⟨"https://cdn.example.com/x.png", 1920, 1080, true, 2000, none, none, 500, true, 512, 512⟩).2.head? =
        some .browserLaunch)) :=
  ⟨by decide, by decide,
   c4_allowlist_subdomain_matching allowListEnv "https://cdn.example.com/x.png"
     true 800 800
     ⟨"https://cdn.example.com/x.png", 1920, 1080, true, 2000, none, none, 500, true, 512, 512⟩
     (by decide) rfl (by decide)⟩

/-- Claim C6: a failure thrown by the compression step never yields an error
result: each pipeline catches it, records the warning, and builds the
success response from the pre-compression buffer, whose base64 encoding is
the returned image payload. -/
theorem c6_compression_failure_recovers (env : Env) (fp u s mt : String)
    (p : ExtractScreenshotFromUrlParams) (r : Bool) (mw mh : Nat)
    (bf b2f : List Nat) (mf m2f : Metadata) (rcf : Option ResizeOpts)
    (evf : List Event) (ef : String)
    (resp : HttpResponse) (b2u : List Nat) (mu m2u : Metadata)
    (rcu : Option ResizeOpts) (evu : List Event) (eu : String)
    (bb b2b : List Nat) (mb m2b : Metadata) (rcb : Option ResizeOpts)
    (evb : List Event) (eb : String)
    (bs b2s : List Nat) (ms m2s : Metadata) (rcs : Option ResizeOpts)
    (evs : List Event) (es : String)
    (f1 : env.existsSync fp = true)
    (f2 : env.readFileSync fp = bf)
    (f3 : ¬ bf.length > env.maxImageSize)
    (f4 : env.sharp.probe bf = .ok mf)
    (f5 : resizeStep env.sharp bf mf = (.ok (b2f, m2f, rcf), evf))
    (f6 : compressImage env.sharp b2f (fileMimeFormat fp).2 = .error ef)
    (u1 : (!(strStarts u "http://") && !(strStarts u "https://")) = false)
    (u2 : (env.allowedDomains.length > 0 &&
      !(domainAllowed env.allowedDomains (urlHostname u))) = false)
    (u3 : env.httpGet u = .ok resp)
    (u4 : env.sharp.probe resp.data = .ok mu)
    (u5 : resizeStep env.sharp resp.data mu = (.ok (b2u, m2u, rcu), evu))
    (u6 : compressImage env.sharp b2u (jsOr m2u.format "jpeg") = .error eu)
    (b1 : env.base64Decode s = bb)
    (b2h : ¬ bb.length = 0)
    (b3 : ¬ bb.length > env.maxImageSize)
    (b4 : env.sharp.probe bb = .ok mb)
    (b5 : resizeStep env.sharp bb mb = (.ok (b2b, m2b, rcb), evb))
    (b6 : compressImage env.sharp b2b
      (jsOr m2b.format (jsOr (splitChar '/' mt)[1]? "jpeg")) = .error eb)
    (s1 : (!(strStarts p.url "http://") && !(strStarts p.url "https://")) = false)
    (s2 : (env.allowedDomains.length > 0 &&
      !(domainAllowed env.allowedDomains (urlHostname p.url))) = false)
    (s3 : env.pup.launch = .ok ())
    (s4 : env.pup.goto p.url = .ok ())
    (s5 : env.pup.screenshot p.full_page = .ok bs)
    (s6 : env.sharp.probe bs = .ok ms)
    (s7 : resizeStep env.sharp bs ms = (.ok (b2s, m2s, rcs), evs))
    (s8 : compressImage env.sharp b2s "png" = .error es) :
    extractImageFromFile env ⟨fp, r, mw, mh⟩ =
      (successResp m2f b2f (fileMimeFormat fp).1,
        .fileRead fp :: (evf ++ [.compressionWarning])) ∧
    extractImageFromUrl env ⟨u, r, mw, mh⟩ =
      (successResp m2u b2u (jsOr resp.contentType "image/jpeg"),
        .fetchUrl u :: (evu ++ [.compressionWarning])) ∧
    extractImageFromBase64 env ⟨s, mt, r, mw, mh⟩ =
      (successResp m2b b2b mt, evb ++ [.compressionWarning]) ∧
    extractScreenshotFromUrl env p =
      (screenshotSuccessResp p m2s b2s,
        .browserLaunch :: (evs ++ [.compressionWarning, .browserClose])) := by
  refine ⟨?_, ?_, ?_, ?_⟩
  · simp [extractImageFromFile, f1, f2, f3, f4, f5, f6]
  · simp [extractImageFromUrl, u1, u2, u3, u4, u5, u6]
  · simp [extractImageFromBase64, b1, b2h, b3, b4, b5, b6]
  · simp [extractScreenshotFromUrl, s1, s2, s3, s4, s5, s6, s7, s8]

/-- Witness for C6 under an environment whose re-encoders always reject. -/
theorem c6_compression_failure_recovers_witness :
    compressImage failCompressEnv.sharp [400, 300] "png" =
      .error "unsupported output format" ∧
    resizeStep failCompressEnv.sharp [400, 300] ⟨some 400, some 300, some "png"⟩ =
      (.ok ([400, 300], ⟨some 400, some 300, some "png"⟩, none), []) ∧
    (extractImageFromFile failCompressEnv ⟨"a.png", true, 800, 800⟩ =
      (successResp ⟨some 400, some 300, some "png"⟩ [400, 300]
        (fileMimeFormat "a.png").1,
        .fileRead "a.png" :: ([] ++ [.compressionWarning])) ∧
     extractImageFromUrl failCompressEnv ⟨"https://img.example.com/a.png", true, 800, 800⟩ =
      (successResp ⟨some 400, some 300, some "png"⟩ [400, 300]
        (jsOr (some "image/png") "image/jpeg"),
        .fetchUrl "https://img.example.com/a.png" :: ([] ++ [.compressionWarning])) ∧
     extractImageFromBase64 failCompressEnv ⟨"QUJD", "image/png", true, 800, 800⟩ =
      (successResp ⟨some 400, some 300, some "png"⟩ [400, 300] "image/png",
        [] ++ [.compressionWarning]) ∧
     extractScreenshotFromUrl failCompressEnv
       ⟨"https://example.com", 1920, 1080, true, 2000, none, none, 500, true, 512, 512⟩ =
      (screenshotSuccessResp
        ⟨"https://example.com", 1920, 1080, true, 2000, none, none, 500, true, 512, 512⟩
        ⟨some 400, some 300, some "png"⟩ [400, 300],
        .browserLaunch :: ([] ++ [.compressionWarning, .browserClose]))) :=
  ⟨rfl, rfl,
   c6_compression_failure_recovers failCompressEnv "a.png"
     "https://img.example.com/a.png" "QUJD" "image/png"
     ⟨"https://example.com", 1920, 1080, true, 2000, none, none, 500, true, 512, 512⟩
     true 800 800
     [400, 300] [400, 300] ⟨some 400, some 300, some "png"⟩ ⟨some 400, some 300, some "png"⟩
     none [] "unsupported output format"
     ⟨[400, 300], some "image/png"⟩ [400, 300] ⟨some 400, some 300, some "png"⟩
     ⟨some 400, some 300, some "png"⟩ none [] "unsupported output format"
     [400, 300] [400, 300] ⟨some 400, some 300, some "png"⟩ ⟨some 400, some 300, some "png"⟩
     none [] "unsupported output format"
     [400, 300] [400, 300] ⟨some 400, some 300, some "png"⟩ ⟨some 400, some 300, some "png"⟩
     none [] "unsupported output format"
     rfl rfl (by decide) rfl rfl rfl
     rfl rfl rfl rfl rfl rfl
     rfl (by decide) (by decide) rfl rfl rfl
     rfl rfl rfl rfl rfl rfl rfl rfl⟩

/-- Claim C7 (amended): when the probed width or height is zero or
undefined, the resize step and bound computation are skipped and the
acquired buffer reaches the compression stage unchanged; the returned
payload is the compression output on those exact acquired bytes, or the
acquired bytes themselves if compression throws. -/
theorem c7_no_dims_skip_resize (env : Env) (fp : String) (r : Bool) (mw mh : Nat)
    (bf : List Nat) (m : Metadata)
    (h1 : env.existsSync fp = true)
    (h2 : env.readFileSync fp = bf)
    (h3 : ¬ bf.length > env.maxImageSize)
    (h4 : env.sharp.probe bf = .ok m)
    (h5 : (truthy m.width && truthy m.height) = false) :
    resizeStep env.sharp bf m = (.ok (bf, m, none), []) ∧
    (∀ c, compressImage env.sharp bf (fileMimeFormat fp).2 = .ok c →
      extractImageFromFile env ⟨fp, r, mw, mh⟩ =
        (successResp m c (fileMimeFormat fp).1, [.fileRead fp])) ∧
    (∀ e, compressImage env.sharp bf (fileMimeFormat fp).2 = .error e →
      extractImageFromFile env ⟨fp, r, mw, mh⟩ =
        (successResp m bf (fileMimeFormat fp).1, [.fileRead fp, .compressionWarning])) := by
  have hrs := resizeStep_skip_not_truthy env.sharp bf m h5
  refine ⟨hrs, ?_, ?_⟩
  · intro c hc
    simp [extractImageFromFile, h1, h2, h3, h4, hrs, hc]
  · intro e he
    simp [extractImageFromFile, h1, h2, h3, h4, hrs, he]

/-- Counterexample to C7 as stated: with undefined probed dimensions the
resize step is indeed skipped, but compression still runs, so the returned
payload (base64 of [1,2,3]) differs from the base64 of the acquired bytes
[7]. -/
theorem c7_passthrough_counterexample :
    noDimsEnv.readFileSync "a.png" = [7] ∧
    noDimsEnv.sharp.probe [7] = .ok ⟨none, none, some "png"⟩ ∧
    extractImageFromFile noDimsEnv ⟨"a.png", true, 800, 800⟩ =
      (⟨[.text (metaJson none none (some "png") 3),
         .image (base64Encode [1, 2, 3]) "image/png"], false⟩, [.fileRead "a.png"]) ∧
    base64Encode [1, 2, 3] ≠ base64Encode [7] :=
  ⟨rfl, rfl, rfl, by decide⟩

/-- Witness for C7 in the undefined-dimensions environment. -/
theorem c7_no_dims_skip_resize_witness :
    noDimsEnv.existsSync "a.png" = true ∧
    noDimsEnv.readFileSync "a.png" = [7] ∧
    ¬ ([7] : List Nat).length > noDimsEnv.maxImageSize ∧
    noDimsEnv.sharp.probe [7] = .ok ⟨none, none, some "png"⟩ ∧
    (truthy (Metadata.mk none none (some "png")).width &&
      truthy (Metadata.mk none none (some "png")).height) = false ∧
    (resizeStep noDimsEnv.sharp [7] ⟨none, none, some "png"⟩ =
      (.ok ([7], ⟨none, none, some "png"⟩, none), []) ∧
     (∀ c, compressImage noDimsEnv.sharp [7] (fileMimeFormat "a.png").2 = .ok c →
       extractImageFromFile noDimsEnv ⟨"a.png", true, 800, 800⟩ =
         (successResp ⟨none, none, some "png"⟩ c (fileMimeFormat "a.png").1,
           [.fileRead "a.png"])) ∧
     (∀ e, compressImage noDimsEnv.sharp [7] (fileMimeFormat "a.png").2 = .error e →
       extractImageFromFile noDimsEnv ⟨"a.png", true, 800, 800⟩ =
         (successResp ⟨none, none, some "png"⟩ [7] (fileMimeFormat "a.png").1,
           [.fileRead "a.png", .compressionWarning]))) :=
  ⟨rfl, rfl, by decide, rfl, by decide,
   c7_no_dims_skip_resize noDimsEnv "a.png" true 800 800 [7] ⟨none, none, some "png"⟩
     rfl rfl (by decide) rfl (by decide)⟩

/-- Claim C8 (amended): a failure result of the current extraction tools is
exactly one text block whose text starts with "Error:" and carries the error
flag; the legacy part_002 handler returns the same single Error text block
but never sets the error flag. -/
theorem c8_failure_single_error_block :
    (∀ env p, (extractImageFromFile env p).1.isError = true →
      ∃ t, (extractImageFromFile env p).1.content = [.text ("Error: " ++ t)]) ∧
    (∀ env p, (extractImageFromUrl env p).1.isError = true →
      ∃ t, (extractImageFromUrl env p).1.content = [.text ("Error: " ++ t)]) ∧
    (∀ env p, (extractImageFromBase64 env p).1.isError = true →
      ∃ t, (extractImageFromBase64 env p).1.content = [.text ("Error: " ++ t)]) ∧
    (∀ env p, (extractScreenshotFromUrl env p).1.isError = true →
      ∃ t, (extractScreenshotFromUrl env p).1.content = [.text ("Error: " ++ t)]) ∧
    (∀ env p, (legacyExtractImageFromUrl env p).isError = false) := by
  refine ⟨?_, ?_, ?_, ?_, ?_⟩
  · intro env p
    simp only [extractImageFromFile]
    repeat' split
    all_goals intro hX
    all_goals first
      | exact ⟨_, rfl⟩
      | simp [successResp] at hX
  · intro env p
    simp only [extractImageFromUrl]
    repeat' split
    all_goals intro hX
    all_goals first
      | exact ⟨_, rfl⟩
      | simp [successResp] at hX
  · intro env p
    simp only [extractImageFromBase64]
    repeat' split
    all_goals intro hX
    all_goals first
      | exact ⟨_, rfl⟩
      | simp [successResp] at hX
  · intro env p
    simp only [extractScreenshotFromUrl]
    repeat' split
    all_goals intro hX
    all_goals first
      | exact ⟨_, rfl⟩
      | simp [screenshotSuccessResp] at hX
  · intro env p
    simp only [legacyExtractImageFromUrl]
    repeat' split
    all_goals rfl

/-- Counterexample to C8 as stated: the legacy part_002 url handler returns
a failure (single Error text block) with the error flag absent. -/
theorem c8_legacy_missing_error_flag :
    (legacyExtractImageFromUrl demoEnv ⟨"ftp://x", true, 800, 800⟩).content =
      [.text "Error: URL must start with http:// or https://"] ∧
    (legacyExtractImageFromUrl demoEnv ⟨"ftp://x", true, 800, 800⟩).isError = false :=
  ⟨rfl, rfl⟩

/-- Witness for C8 at a concrete rejected request. -/
theorem c8_failure_single_error_block_witness :
    (extractImageFromUrl allowListEnv ⟨"https://evil.com/x.png", true, 800, 800⟩).1.isError
      = true ∧
    ∃ t, (extractImageFromUrl allowListEnv
      ⟨"https://evil.com/x.png", true, 800, 800⟩).1.content = [.text ("Error: " ++ t)] :=
  ⟨rfl, c8_failure_single_error_block.2.1 allowListEnv
    ⟨"https://evil.com/x.png", true, 800, 800⟩ rfl⟩

/-- Outcome analysis of the dimension-bounding block on defined dimensions:
either it skips (zero axis or both within 512) leaving everything unchanged,
or it resizes with targets min(512) on each axis and re-probes. -/
theorem resizeStep_ok_cases (sm : SharpModel) (b b2 : List Nat) (w h0 : Nat)
    (f0 : Option String) (m2 : Metadata) (rc : Option ResizeOpts) (ev : List Event)
    (hres : resizeStep sm b ⟨some w, some h0, f0⟩ = (.ok (b2, m2, rc), ev)) :
    (b2 = b ∧ m2 = ⟨some w, some h0, f0⟩ ∧ rc = none ∧
      (w = 0 ∨ h0 = 0 ∨ (w ≤ 512 ∧ h0 ≤ 512))) ∨
    (∃ br, b2 = br ∧ w ≠ 0 ∧ h0 ≠ 0 ∧
      sm.resizeBytes b ⟨min w 512, min h0 512, "inside", true⟩ = .ok br ∧
      sm.probe br = .ok m2) := by
  unfold resizeStep at hres
  simp only [truthy, Option.getD_some, DEFAULT_MAX_WIDTH, DEFAULT_MAX_HEIGHT] at hres
  split at hres
  · next ht =>
    simp only [Bool.and_eq_true, bne_iff_ne] at ht
    split at hres
    · next hgt =>
      split at hres
      · next e heq => simp at hres
      · next br heq =>
        split at hres
        · next e2 heq2 => simp at hres
        · next m2x heq2 =>
          simp only [Prod.mk.injEq, Except.ok.injEq] at hres
          obtain ⟨⟨hb2, hm2, hrc⟩, hev⟩ := hres
          right
          exact ⟨br, hb2.symm, ht.1, ht.2, heq, hm2 ▸ heq2⟩
    · next hgt =>
      simp only [Prod.mk.injEq, Except.ok.injEq] at hres
      obtain ⟨⟨hb2, hm2, hrc⟩, hev⟩ := hres
      left
      refine ⟨hb2.symm, hm2.symm, hrc.symm, ?_⟩
      simp only [Bool.or_eq_true, decide_eq_true_eq, not_or] at hgt
      right; right
      omega
  · next ht =>
    simp only [Bool.and_eq_true, bne_iff_ne, not_and_or, not_not] at ht
    simp only [Prod.mk.injEq, Except.ok.injEq] at hres
    obtain ⟨⟨hb2, hm2, hrc⟩, hev⟩ := hres
    left
    refine ⟨hb2.symm, hm2.symm, hrc.symm, ?_⟩
    rcases ht with ht | ht
    · exact Or.inl (by simpa using ht)
    · exact Or.inr (Or.inl (by simpa using ht))

/-- Claim C9: one probe-and-bound pass of the normalization pipeline is
idempotent on dimensions — a second pass over its output buffer returns the
same buffer and metadata and performs no further resize, because the first
pass's output already fits within the 512 bound on each axis. -/
theorem c9_normalize_idempotent (sm : SharpModel) (hfa : sm.faithful)
    (b b2 : List Nat) (m2 : Metadata) (rc : Option ResizeOpts) (ev : List Event)
    (h : normalizePass sm b = (.ok (b2, m2, rc), ev)) :
    normalizePass sm b2 = (.ok (b2, m2, none), []) := by
  unfold normalizePass at h ⊢
  rcases hp : sm.probe b with e | m0
  · simp only [hp] at h
    simp at h
  · simp only [hp] at h
    obtain ⟨ow, oh, f0⟩ := m0
    rcases ow with _ | w
    · rw [resizeStep_skip_not_truthy sm b ⟨none, oh, f0⟩ (by simp [truthy])] at h
      simp only [Prod.mk.injEq, Except.ok.injEq] at h
      obtain ⟨⟨hb2, hm2, hrc⟩, hev⟩ := h
      simp only [← hb2, hp, ← hm2]
      exact resizeStep_skip_not_truthy sm b ⟨none, oh, f0⟩ (by simp [truthy])
    · rcases oh with _ | h0
      · rw [resizeStep_skip_not_truthy sm b ⟨some w, none, f0⟩ (by simp [truthy])] at h
        simp only [Prod.mk.injEq, Except.ok.injEq] at h
        obtain ⟨⟨hb2, hm2, hrc⟩, hev⟩ := h
        simp only [← hb2, hp, ← hm2]
        exact resizeStep_skip_not_truthy sm b ⟨some w, none, f0⟩ (by simp [truthy])
      · rcases resizeStep_ok_cases sm b b2 w h0 f0 m2 rc ev h with
          ⟨hb2, hm2, hrc, hdim⟩ | ⟨br, hb2, hw0, hh0, hrb, hpr⟩
        · simp only [hb2, hp, hm2]
          rcases hdim with hz | hz | ⟨hle1, hle2⟩
          · subst hz
            exact resizeStep_skip_not_truthy sm b ⟨some 0, some h0, f0⟩ (by simp [truthy])
          · subst hz
            exact resizeStep_skip_not_truthy sm b ⟨some w, some 0, f0⟩ (by simp [truthy])
          · exact resizeStep_skip_of_le sm b w h0 f0 hle1 hle2
        · have hfit := hfa b w h0 f0 ⟨min w 512, min h0 512, "inside", true⟩ br hp hrb
          have hm2e : m2 = ⟨some (fitInside w h0 (min w 512) (min h0 512)).1,
              some (fitInside w h0 (min w 512) (min h0 512)).2, f0⟩ := by
            rw [hpr] at hfit
            exact Except.ok.inj hfit
          have hfle := fitInside_le w h0 (min w 512) (min h0 512)
            (Nat.pos_of_ne_zero hw0) (Nat.pos_of_ne_zero hh0)
          simp only [hb2, hpr, hm2e]
          exact resizeStep_skip_of_le sm br _ _ f0
            (le_trans hfle.1 (min_le_right w 512))
            (le_trans hfle.2 (min_le_right h0 512))

/-- Witness for C9: the demo codec resizes 1920x1080 to 512x288 and a second
pass leaves it untouched. -/
theorem c9_normalize_idempotent_witness :
    SharpModel.faithful demoSharp ∧
    normalizePass demoSharp [1920, 1080] =
      (.ok ([512, 288], ⟨some 512, some 288, some "png"⟩,
        some ⟨512, 512, "inside", true⟩),
       [.resizeCall ⟨512, 512, "inside", true⟩]) ∧
    normalizePass demoSharp [512, 288] =
      (.ok ([512, 288], ⟨some 512, some 288, some "png"⟩, none), []) :=
  ⟨demoSharp_faithful, rfl,
   c9_normalize_idempotent demoSharp demoSharp_faithful [1920, 1080] [512, 288]
     ⟨some 512, some 288, some "png"⟩ (some ⟨512, 512, "inside", true⟩)
     [.resizeCall ⟨512, 512, "inside", true⟩] rfl⟩

set_option maxHeartbeats 1600000 in
/-- Claim C10: in every success response, the text metadata block and the
image block describe the same final buffer — the reported size is the byte
length of the very buffer whose base64 encoding is the image payload. -/
theorem c10_metadata_matches_payload :
    (∀ env p, (extractImageFromFile env p).1.isError = false →
      ∃ buf w h f m, (extractImageFromFile env p).1.content =
        [.text (metaJson w h f buf.length), .image (base64Encode buf) m]) ∧
    (∀ env p, (extractImageFromUrl env p).1.isError = false →
      ∃ buf w h f m, (extractImageFromUrl env p).1.content =
        [.text (metaJson w h f buf.length), .image (base64Encode buf) m]) ∧
    (∀ env p, (extractImageFromBase64 env p).1.isError = false →
      ∃ buf w h f m, (extractImageFromBase64 env p).1.content =
        [.text (metaJson w h f buf.length), .image (base64Encode buf) m]) ∧
    (∀ env (p : ExtractScreenshotFromUrlParams),
      (extractScreenshotFromUrl env p).1.isError = false →
      ∃ buf w h f, (extractScreenshotFromUrl env p).1.content =
        [.text (screenshotMetaJson p.url p.viewport_width p.viewport_height
          p.full_page p.click_selector p.click_wait_after w h f buf.length),
         .image (base64Encode buf) "image/png"]) := by
  refine ⟨?_, ?_, ?_, ?_⟩
  · intro env p
    simp only [extractImageFromFile]
    repeat' split
    all_goals intro hX
    all_goals first
      | exact ⟨_, _, _, _, _, rfl⟩
      | simp [errorResp] at hX
  · intro env p
    simp only [extractImageFromUrl]
    repeat' split
    all_goals intro hX
    all_goals first
      | exact ⟨_, _, _, _, _, rfl⟩
      | simp [errorResp] at hX
  · intro env p
    simp only [extractImageFromBase64]
    repeat' split
    all_goals intro hX
    all_goals first
      | exact ⟨_, _, _, _, _, rfl⟩
      | simp [errorResp] at hX
  · intro env p
    simp only [extractScreenshotFromUrl]
    repeat' split
    all_goals intro hX
    all_goals first
      | (simp only [screenshotSuccessResp]; exact ⟨_, _, _, _, rfl⟩)
      | (exfalso; simp [errorResp] at hX)

set_option maxHeartbeats 1000000 in
/-- Witness for C10 on a concrete success response. -/
theorem c10_metadata_matches_payload_witness :
    (extractImageFromFile demoEnv ⟨"a.png", true, 800, 800⟩).1.isError = false ∧
    ∃ buf w h f m, (extractImageFromFile demoEnv ⟨"a.png", true, 800, 800⟩).1.content =
      [.text (metaJson w h f buf.length), .image (base64Encode buf) m] :=
  ⟨by decide, c10_metadata_matches_payload.1 demoEnv ⟨"a.png", true, 800, 800⟩ (by decide)⟩

end ImageExtractor
